import Mathlib

/-!
Verification of the rule-driven forensic analysis tool.

Shallow embedding of the repository's Python sources:
  * `core/analyzer.py`   — `ForensicAnalyzer` (pattern scan, scoring, summary)
  * `core/file_handlers.py` — `FileHandlers` (multi-format ingestion)
  * `analysis.py`        — `RuleManager`, `FileManager`, `ForensicAnalyzer`
  * `run_analysis.py`    — batch driver (`safe_read_file`, `analyze_file`)

Modelling conventions:
  * The Python `re` module is external to the repository.  A compiled
    pattern is modelled by the structure `Pattern`: its source string, a
    flag saying whether `re.compile` accepts it (an `re.error` at
    evaluation time depends only on the pattern), and its `findall`
    behaviour as a pure function of the subject text.  For the concrete
    default rule catalogs, the word-alternation patterns are given
    executable semantics by the small word-boundary engine below, which
    mirrors `\b`-delimited words joined by `\s+` with `re.IGNORECASE`
    (ASCII word characters; sufficient for every subject text used here).
  * Machine integers: Python integers are unbounded, so scores are `Int`
    and counts/sizes are `Nat` with no wrap-around.
  * File-system state is explicit: a file is a record of the decoded
    contents each reader branch would obtain; library-level decoding
    (csv/json modules) is abstracted to its produced lines.
  * Exceptions are `Except`; `None` is `Option.none`.
-/

namespace Forensics

/-- A single element of the list returned by Python's `re.findall`:
a plain matched substring, or a tuple of captured groups. -/
inductive PyMatch where
  | str (s : String)
  | tup (xs : List String)
deriving DecidableEq, Repr

/-- Model of a compiled regular expression (the `re` module is external
to the repository): the pattern source, whether `re.compile` accepts it,
and the `findall` behaviour over a subject text. -/
structure Pattern where
  src : String
  compiles : Bool
  find : String → List PyMatch

/-- `re.findall(pattern, text)`: raises `re.error` (modelled as `none`)
exactly when the pattern does not compile. -/
def findall (p : Pattern) (text : String) : Option (List PyMatch) :=
  if p.compiles then some (p.find text) else none

/-! ### A small word-boundary match engine

Executable semantics for the default catalogs' patterns: alternations of
`\b`-delimited word sequences joined by `\s+`, matched case-insensitively
left to right, non-overlapping, first alternative wins — mirroring
`re.findall` with `re.IGNORECASE` on such patterns (ASCII word chars). -/

/-- `\w` for ASCII subjects. -/
def isWordChar (c : Char) : Bool := c.isAlphanum || c == '_'

/-- `\s` for the common whitespace characters. -/
def isSpaceChar (c : Char) : Bool :=
  c == ' ' || c == '\t' || c == '\n' || c == '\r' || c == '\x0b' || c == '\x0c'

/-- Match the (lowercase) characters `w` against the head of `cs`,
case-insensitively; return the remaining characters. -/
def matchChars : List Char → List Char → Option (List Char)
  | [], cs => some cs
  | _ :: _, [] => none
  | a :: as, c :: cs => if c.toLower == a then matchChars as cs else none

/-- `\s+` (greedy): consume one or more whitespace characters. -/
def takeSpaces : List Char → Option (List Char)
  | [] => none
  | c :: cs => if isSpaceChar c then some (cs.dropWhile isSpaceChar) else none

/-- Match one alternative: words joined by `\s+`. -/
def matchSeq : List (List Char) → List Char → Option (List Char)
  | [], cs => some cs
  | w :: ws, cs =>
    match matchChars w cs with
    | none => none
    | some r1 =>
      if ws.isEmpty then some r1
      else
        match takeSpaces r1 with
        | none => none
        | some r2 => matchSeq ws r2

/-- Match one alternative at the current position, with `\b` at both
ends (`prevIsWord` reports whether the preceding character is a word
character). -/
def seqAt (prevIsWord : Bool) (alt : List (List Char)) (cs : List Char) :
    Option (List Char) :=
  if prevIsWord then none
  else
    match matchSeq alt cs with
    | none => none
    | some rest =>
      if rest.isEmpty || !isWordChar (rest.headD ' ') then some rest else none

/-- Try the alternatives in order; first match wins. -/
def firstAlt (prevIsWord : Bool) (cs : List Char) :
    List (List (List Char)) → Option (List Char)
  | [] => none
  | a :: rest =>
    match seqAt prevIsWord a cs with
    | some r => some r
    | none => firstAlt prevIsWord cs rest

/-- Left-to-right non-overlapping scan.  The fuel starts at the subject
length; every step consumes at least one character, so it never runs out
on the initial call. -/
def scanAux (alts : List (List (List Char))) :
    Nat → Bool → List Char → List (List Char)
  | 0, _, _ => []
  | _ + 1, _, [] => []
  | fuel + 1, prevIsWord, c :: rest =>
    match firstAlt prevIsWord (c :: rest) alts with
    | some r =>
      if r.length < rest.length + 1 then
        (c :: rest).take (rest.length + 1 - r.length) ::
          scanAux alts fuel true r
      else scanAux alts fuel (isWordChar c) rest
    | none => scanAux alts fuel (isWordChar c) rest

/-- `re.findall` for an alternation of word sequences. -/
def findAlts (alts : List (List String)) (text : String) : List PyMatch :=
  let cs := text.toList
  (scanAux (alts.map (fun ws => ws.map (fun w => w.toList)))
      cs.length false cs).map
    (fun m => PyMatch.str (String.mk m))

/-- A valid pattern whose behaviour is the word engine on `alts`. -/
def wordPat (src : String) (alts : List (List String)) : Pattern :=
  { src := src, compiles := true, find := findAlts alts }

/-- `re.search(r'\b<w>\b', line, re.IGNORECASE)` as a Boolean. -/
def re_search_word (w : String) (line : String) : Bool :=
  !(findAlts [[w]] line).isEmpty

/-- Python's `str.endswith`, over the character list. -/
def pyEndsWith (s suffix : String) : Bool :=
  List.isSuffixOf suffix.toList s.toList

/-- Worker for `pySplitlines`: segments terminated by `\n`; a trailing
segment is kept only when non-empty. -/
def splitLinesAux : List Char → List Char → List String
  | [], acc => if acc.isEmpty then [] else [String.mk acc.reverse]
  | '\n' :: cs, acc => String.mk acc.reverse :: splitLinesAux cs []
  | c :: cs, acc => splitLinesAux cs (c :: acc)

/-- Python's `str.splitlines` restricted to `\n` separators (the only
separator occurring in the modelled corpora): `"" → []`,
`"a\nb" → ["a", "b"]`, `"a\n" → ["a"]`, `"\n" → [""]`. -/
def pySplitlines (s : String) : List String :=
  splitLinesAux s.toList []

/-! ### Stable descending sort

`list.sort(key=..., reverse=True)` in Python is a stable sort: the list
is ordered by descending key and elements with equal keys keep their
original relative order.  A stable sort's output is uniquely determined
by these properties, so the insertion sort below is a faithful model. -/

/-- Insert `x` (coming from earlier in the original list) into an
already-sorted-descending list: walk past strictly greater keys, stop at
the first key `≤ key x`, so `x` lands before equal keys. -/
def insertDescBy (key : α → Int) (x : α) : List α → List α
  | [] => [x]
  | y :: ys =>
    if key x < key y then y :: insertDescBy key x ys else x :: y :: ys

/-- Stable sort by descending `key` (the model of
`sort(key=..., reverse=True)`). -/
def sortDescBy (key : α → Int) : List α → List α
  | [] => []
  | x :: xs => insertDescBy key x (sortDescBy key xs)

theorem perm_insertDescBy (key : α → Int) (x : α) :
    ∀ l : List α, (insertDescBy key x l).Perm (x :: l) := by
  intro l
  induction l with
  | nil => simp [insertDescBy]
  | cons y ys ih =>
    by_cases h : key x < key y
    · simp only [insertDescBy, if_pos h]
      exact (ih.cons y).trans (List.Perm.swap x y ys)
    · simp [insertDescBy, if_neg h]

theorem perm_sortDescBy (key : α → Int) :
    ∀ l : List α, (sortDescBy key l).Perm l := by
  intro l
  induction l with
  | nil => exact List.Perm.refl _
  | cons x xs ih =>
    exact (perm_insertDescBy key x (sortDescBy key xs)).trans (ih.cons x)

theorem pairwise_insertDescBy (key : α → Int) (x : α) :
    ∀ l : List α, l.Pairwise (fun a b => key b ≤ key a) →
      (insertDescBy key x l).Pairwise (fun a b => key b ≤ key a) := by
  intro l
  induction l with
  | nil => intro _; simp [insertDescBy]
  | cons y ys ih =>
    intro hl
    rw [List.pairwise_cons] at hl
    by_cases h : key x < key y
    · simp only [insertDescBy, if_pos h]
      rw [List.pairwise_cons]
      refine ⟨?_, ih hl.2⟩
      intro z hz
      rcases List.mem_cons.mp ((perm_insertDescBy key x ys).mem_iff.mp hz) with
        hz | hz
      · exact hz ▸ le_of_lt h
      · exact hl.1 z hz
    · simp only [insertDescBy, if_neg h]
      rw [List.pairwise_cons]
      refine ⟨?_, List.pairwise_cons.mpr hl⟩
      intro z hz
      rcases List.mem_cons.mp hz with hz | hz
      · exact hz ▸ not_lt.mp h
      · exact le_trans (hl.1 z hz) (not_lt.mp h)

theorem pairwise_sortDescBy (key : α → Int) :
    ∀ l : List α, (sortDescBy key l).Pairwise (fun a b => key b ≤ key a) := by
  intro l
  induction l with
  | nil => simp [sortDescBy]
  | cons x xs ih => exact pairwise_insertDescBy key x _ ih

theorem filter_insertDescBy (key : α → Int) (x : α) (c : Int) :
    ∀ l : List α,
      (insertDescBy key x l).filter (fun a => key a == c) =
        if key x == c then x :: l.filter (fun a => key a == c)
        else l.filter (fun a => key a == c) := by
  intro l
  induction l with
  | nil =>
    by_cases hc : key x = c <;> simp [insertDescBy, List.filter_cons, hc]
  | cons y ys ih =>
    by_cases h : key x < key y
    · simp only [insertDescBy]
      rw [if_pos h]
      by_cases hc : key x = c
      · have hyc : ¬ (key y = c) := by omega
        simp [List.filter_cons, ih, hc, hyc]
      · simp [List.filter_cons, ih, hc]
    · simp only [insertDescBy]
      rw [if_neg h]
      by_cases hc : key x = c
      · simp [List.filter_cons, hc]
      · simp [List.filter_cons, hc]

theorem filter_sortDescBy (key : α → Int) (c : Int) :
    ∀ l : List α,
      (sortDescBy key l).filter (fun a => key a == c) =
        l.filter (fun a => key a == c) := by
  intro l
  induction l with
  | nil => rfl
  | cons x xs ih =>
    simp only [sortDescBy]
    rw [filter_insertDescBy]
    by_cases hc : key x = c <;> simp [List.filter_cons, ih, hc]

/-! ### `core/analyzer.py` -/

/-- One rule dict of `core/analyzer.py` (`DEFAULT_RULES` entry shape).
Fields read with `.get` are `Option`; `rule["pattern"]` is accessed
unconditionally, so it is mandatory. -/
structure CoreRule where
  name : Option String
  pattern : Pattern
  score : Option Int
  desc : Option String

/-- The rules mapping `{"high": [...], "medium": [...], "low": [...]}`.
`self.rules.get(level, [])` means a missing tier is the empty list. -/
structure CoreRules where
  high : List CoreRule
  medium : List CoreRule
  low : List CoreRule

/-- One entry appended by `ForensicAnalyzer.search_patterns`. -/
structure CoreEntry where
  level : String
  name : Option String
  pattern : String
  count : Nat
  score : Int
  desc : String
deriving DecidableEq, Repr

/-- The entry dict built for a rule with a non-empty match list. -/
def mkCoreEntry (level : String) (r : CoreRule) (ms : List PyMatch) :
    CoreEntry :=
  { level := level
    name := r.name
    pattern := r.pattern.src
    count := ms.length
    score := r.score.getD 1
    desc := r.desc.getD "" }

/-- The per-tier loop body of `search_patterns`: `try findall except
re.error: matches = []`, then append an entry only if `matches` is
non-empty. -/
def collectTier (level : String) (text : String) :
    List CoreRule → List CoreEntry
  | [] => []
  | r :: rs =>
    let ms :=
      match findall r.pattern text with
      | some found => found
      | none => []
    if ms.isEmpty then collectTier level text rs
    else mkCoreEntry level r ms :: collectTier level text rs

/-- The pre-sort entry list: tiers iterated `("high", "medium", "low")`,
declaration order within a tier. -/
def collectAll (rules : CoreRules) (text : String) : List CoreEntry :=
  collectTier "high" text rules.high ++ collectTier "medium" text rules.medium
    ++ collectTier "low" text rules.low

/-- The sort key of `found.sort(key=lambda e: e["score"] * e["count"],
reverse=True)`. -/
def scoreKey (e : CoreEntry) : Int := e.score * (e.count : Int)

/-- `ForensicAnalyzer.search_patterns` (core/analyzer.py:40-59). -/
def search_patterns (rules : CoreRules) (text : String) : List CoreEntry :=
  sortDescBy scoreKey (collectAll rules text)

/-- `ForensicAnalyzer.analyze_basic` result (the wall-clock `timestamp`
field is not modelled). -/
structure BasicSummary where
  total_lines : Nat
  errors : Nat
  warnings : Nat
  info_events : Nat
deriving DecidableEq, Repr

/-- `ForensicAnalyzer.analyze_basic` (core/analyzer.py:27-38). -/
def analyze_basic (text : String) : BasicSummary :=
  let lines := pySplitlines text
  { total_lines := lines.length
    errors := (lines.filter (re_search_word "error")).length
    warnings := (lines.filter (re_search_word "warning")).length
    info_events := (lines.filter (re_search_word "info")).length }

/-- `ForensicAnalyzer.summarize` result dict. -/
structure CoreSummary where
  basic : BasicSummary
  patterns : List CoreEntry
  total_score : Int
  overall_level : String
  recommended_action : String
deriving DecidableEq, Repr

/-- The claim's aggregate formula `Σ (score × count)` over core scan
entries — also exactly what `summarize` computes. -/
def sumScoreCount (ps : List CoreEntry) : Int :=
  (ps.map (fun p => p.score * (p.count : Int))).sum

/-- `ForensicAnalyzer.summarize` (core/analyzer.py:61-78). -/
def summarize (basic : BasicSummary) (patterns : List CoreEntry) :
    CoreSummary :=
  let total_score := sumScoreCount patterns
  if total_score ≥ 20 then
    ⟨basic, patterns, total_score, "HIGH", "Immediate response required"⟩
  else if total_score ≥ 10 then
    ⟨basic, patterns, total_score, "MEDIUM",
      "Continuous monitoring suggested"⟩
  else
    ⟨basic, patterns, total_score, "LOW", "Normal - no urgent action"⟩

/-- `DEFAULT_RULES` of core/analyzer.py (patterns are `\b`-word
alternations, given semantics by the word engine). -/
def DEFAULT_RULES : CoreRules :=
  { high :=
      [ { name := some "Ransomware"
          pattern := wordPat "\\bransomware\\b" [["ransomware"]]
          score := some 10, desc := some "برمجية فدية" }
      , { name := some "SQL Injection"
          pattern := wordPat "\\bsql\\s+injection\\b" [["sql", "injection"]]
          score := some 10, desc := some "محاولة حقن SQL" } ]
    medium :=
      [ { name := some "Malware"
          pattern := wordPat "\\bmalware\\b" [["malware"]]
          score := some 5, desc := some "برامج ضارة" }
      , { name := some "Unauthorized Access"
          pattern := wordPat "\\bunauthorized\\b|\\bunauthorized\\s+access\\b"
            [["unauthorized"], ["unauthorized", "access"]]
          score := some 5, desc := some "وصول غير مصرح به" }
      , { name := some "Failed Login"
          pattern := wordPat "\\bfailed\\s+login\\b|\\blogin\\s+failed\\b"
            [["failed", "login"], ["login", "failed"]]
          score := some 5, desc := some "محاولات دخول فاشلة" } ]
    low :=
      [ { name := some "Warning"
          pattern := wordPat "\\bwarning\\b" [["warning"]]
          score := some 1, desc := some "تحذير نظام" }
      , { name := some "Timeout"
          pattern := wordPat "\\btimeout\\b" [["timeout"]]
          score := some 1, desc := some "انتهاء مهلة اتصال" } ] }

/-! ### `run_analysis.py` -/

/-- The observable state of one input path handed to the batch driver:
whether `open` succeeds, and the decoded text it would yield
(`errors='ignore'` makes decoding total). -/
structure PathInput where
  path : String
  present : Bool
  content : String

/-- Exceptions that escape `analyze_file`. -/
inductive PyError where
  | fileNotFound (path : String)
deriving DecidableEq, Repr

/-- The executable-extension blocklist of `safe_read_file`
(run_analysis.py:28). -/
def blockedExts : List String := [".exe", ".bat", ".cmd", ".js", ".vbs"]

/-- `file_path.endswith(('.exe', '.bat', '.cmd', '.js', '.vbs'))`. -/
def isBlocked (path : String) : Bool :=
  blockedExts.any (fun e => pyEndsWith path e)

/-- `safe_read_file` (run_analysis.py:26-32): blocked paths yield `""`
without touching the file; otherwise `open` raises `FileNotFoundError`
for a missing path, else the decoded content is returned. -/
def safe_read_file (p : PathInput) : Except PyError String :=
  if isBlocked p.path then Except.ok ""
  else if p.present then Except.ok p.content
  else Except.error (PyError.fileNotFound p.path)

/-- `analyze_file` (run_analysis.py:52-85); printing, report writing and
logging are side effects with no bearing on the returned value.
`if not text_content: return None`. -/
def analyze_file (p : PathInput) : Except PyError (Option CoreSummary) :=
  match safe_read_file p with
  | Except.error e => Except.error e
  | Except.ok text =>
    if text = "" then Except.ok none
    else
      let basic := analyze_basic text
      let patterns := search_patterns DEFAULT_RULES text
      Except.ok (some (summarize basic patterns))

/-- `list(executor.map(analyze_file, all_files))`
(run_analysis.py:93-94): results are collected in input order and the
first exception raised by a task re-raises during collection, discarding
every result. -/
def runBatch : List PathInput → Except PyError (List (Option CoreSummary))
  | [] => Except.ok []
  | p :: ps =>
    match analyze_file p with
    | Except.error e => Except.error e
    | Except.ok r =>
      match runBatch ps with
      | Except.error e => Except.error e
      | Except.ok rs => Except.ok (r :: rs)

/-! ### `analysis.py` — `Config`, `RuleManager`, `ForensicAnalyzer` -/

namespace Config

/-- `Config.SUPPORTED_EXTENSIONS`. -/
def SUPPORTED_EXTENSIONS : List String := [".log", ".txt", ".csv", ".json", ".zip"]

/-- `Config.MAX_FILE_SIZE` — 100 MB. -/
def MAX_FILE_SIZE : Nat := 100 * 1024 * 1024

/-- `Config.RISK_THRESHOLDS['HIGH']`. -/
def RISK_HIGH : Int := 20

/-- `Config.RISK_THRESHOLDS['MEDIUM']`. -/
def RISK_MEDIUM : Int := 10

/-- `Config.RISK_THRESHOLDS['LOW']`. -/
def RISK_LOW : Int := 0

end Config

/-- One rule dict of `analysis.py` (all fields except the pattern are
read with `.get`). -/
structure ARule where
  name : Option String
  pattern : Pattern
  description : Option String
  score : Option Int
  category : Option String

/-- The parsed rule source: a dict keyed by
`high_risk_patterns` / `medium_risk_patterns` / `low_risk_patterns`.
`rules.get(category, [])` treats a missing key as the empty list; keys
other than these three are never read by the scan. -/
structure RuleSet2 where
  high_risk_patterns : List ARule
  medium_risk_patterns : List ARule
  low_risk_patterns : List ARule

/-- One entry appended by `search_suspicious_patterns`. -/
structure Entry2 where
  risk_icon : String
  risk_level : String
  name : Option String
  pattern : String
  count : Nat
  score : Int
  description : String
  category : String
  examples : List String
  first_occurrence : String
deriving DecidableEq, Repr

/-- One example string: `str(m)` for a plain match, and
`" ".join(str(x) for x in m if x)` for a capture-group tuple
(falsy, i.e. empty, captures are dropped). -/
def renderMatch : PyMatch → String
  | PyMatch.str s => s
  | PyMatch.tup xs => String.intercalate " " (xs.filter (fun x => !(x == "")))

/-- The entry dict built in `search_suspicious_patterns`
(analysis.py:253-264): examples from `matches[:3]`,
`first_occurrence = examples[0] if examples else ""`. -/
def mkEntry2 (icon level : String) (r : ARule) (ms : List PyMatch) : Entry2 :=
  let examples := (ms.take 3).map renderMatch
  { risk_icon := icon
    risk_level := level
    name := r.name
    pattern := r.pattern.src
    count := ms.length
    score := r.score.getD 1
    description := r.description.getD "لا يوجد وصف"
    category := r.category.getD "غير مصنف"
    examples := examples
    first_occurrence := examples.headD "" }

/-- The inner loop of `search_suspicious_patterns`
(analysis.py:239-265): `try findall except re.error: matches = []`,
append an entry only when `matches` is truthy. -/
def collect2 (icon level : String) (content : String) :
    List ARule → List Entry2
  | [] => []
  | r :: rs =>
    let ms :=
      match findall r.pattern content with
      | some found => found
      | none => []
    if ms.isEmpty then collect2 icon level content rs
    else mkEntry2 icon level r ms :: collect2 icon level content rs

/-- The pre-sort entry list: `risk_levels_mapping` iterates the tiers in
insertion order high → medium → low (analysis.py:232-238). -/
def collectAll2 (rules : RuleSet2) (content : String) : List Entry2 :=
  collect2 "🟥" "عالي الخطورة" content rules.high_risk_patterns
    ++ collect2 "🟨" "متوسط الخطورة" content rules.medium_risk_patterns
    ++ collect2 "🟩" "منخفض الخطورة" content rules.low_risk_patterns

/-- The sort key `x['score'] * x['count']`. -/
def scoreKey2 (e : Entry2) : Int := e.score * (e.count : Int)

/-- `ForensicAnalyzer.search_suspicious_patterns` (analysis.py:228-268):
collect, then `found_items.sort(key=..., reverse=True)` (stable). -/
def search_suspicious_patterns (rules : RuleSet2) (content : String) :
    List Entry2 :=
  sortDescBy scoreKey2 (collectAll2 rules content)

/-- The claim's aggregate formula `Σ (score × count)` over analysis scan
entries — also exactly `total_risk_score` of
`advanced_statistical_analysis`. -/
def sumScoreCount2 (ps : List Entry2) : Int :=
  (ps.map (fun p => p.score * (p.count : Int))).sum

/-- The risk-evaluation section (`تقييم_الخطورة`) of
`advanced_statistical_analysis` (analysis.py:278-308); the timestamp /
IP / URL statistics sections do not interact with scoring and are not
modelled. -/
structure RiskAssessment where
  total_risk_score : Int
  overall_risk : String
  action_required : String
  threat_count : Nat
deriving DecidableEq, Repr

/-- Scoring and classification of `advanced_statistical_analysis`
(analysis.py:278-289), with the scan's rule set made explicit
(`self.rule_manager`). -/
def advanced_risk (rules : RuleSet2) (content : String) : RiskAssessment :=
  let suspicious := search_suspicious_patterns rules content
  let total_risk_score := sumScoreCount2 suspicious
  if total_risk_score ≥ Config.RISK_HIGH then
    ⟨total_risk_score, "🟥 عالي", "نعم - تدخل فوري مطلوب", suspicious.length⟩
  else if total_risk_score ≥ Config.RISK_MEDIUM then
    ⟨total_risk_score, "🟨 متوسط", "مراقبة مستمرة", suspicious.length⟩
  else
    ⟨total_risk_score, "🟩 منخفض", "لا - ضمن المعدل الطبيعي", suspicious.length⟩

/-- `RuleManager._get_default_rules` (analysis.py:79-98).  Patterns are
copied verbatim; word-alternation patterns get word-engine semantics.
The `Brute Force Pattern` repetition `(failed\s+login.*){3,}` and the
optional-space part of `\btime\s?out\b` are outside the word engine and
their match behaviour is approximated (it decides no claim: every
theorem about scanning quantifies over arbitrary rule sets). -/
def default_rules2 : RuleSet2 :=
  { high_risk_patterns :=
      [ { name := some "Ransomware"
          pattern := wordPat "\\bransomware\\b" [["ransomware"]]
          description := some "برمجية فدية", score := some 10
          category := some "برامج ضارة" }
      , { name := some "SQL Injection"
          pattern := wordPat "sql\\s+injection|\\binjection\\b"
            [["sql", "injection"], ["injection"]]
          description := some "محاولة حقن SQL", score := some 10
          category := some "هجوم تطبيقي" }
      , { name := some "Privilege Escalation"
          pattern := wordPat "privilege\\s+escalation"
            [["privilege", "escalation"]]
          description := some "محاولة تصعيد صلاحيات", score := some 8
          category := some "هجوم تطبيقي" } ]
    medium_risk_patterns :=
      [ { name := some "Malware"
          pattern := wordPat "\\bmalware\\b|\\bvirus\\b|\\btrojan\\b"
            [["malware"], ["virus"], ["trojan"]]
          description := some "برامج ضارة", score := some 5
          category := some "برامج ضارة" }
      , { name := some "Unauthorized Access"
          pattern := wordPat "\\bunauthorized\\b|\\bunauthorized\\s+access\\b"
            [["unauthorized"], ["unauthorized", "access"]]
          description := some "وصول غير مصرح به", score := some 5
          category := some "أمن الشبكات" }
      , { name := some "Failed Login"
          pattern := wordPat
            "\\bfailed\\s+login\\b|\\blogin\\s+failed\\b|\\bauthentication\\s+failed\\b"
            [["failed", "login"], ["login", "failed"],
             ["authentication", "failed"]]
          description := some "محاولات دخول فاشلة", score := some 5
          category := some "أمان النظام" }
      , { name := some "Brute Force Pattern"
          pattern :=
            { src := "(failed\\s+login.*){3,}", compiles := true
              find := fun _ => [] }
          description := some "نمط يشير إلى هجوم تخمين متكرر", score := some 6
          category := some "هجوم شبكي" } ]
    low_risk_patterns :=
      [ { name := some "Warning"
          pattern := wordPat "\\bwarning\\b" [["warning"]]
          description := some "تحذير نظام", score := some 1
          category := some "مراقبة النظام" }
      , { name := some "Timeout"
          pattern := wordPat "\\btimeout\\b|\\btime\\s?out\\b"
            [["timeout"], ["time", "out"]]
          description := some "انتهاء مهلة اتصال", score := some 1
          category := some "أداء النظام" }
      , { name := some "Scan"
          pattern := wordPat "\\bscan\\b|\\bscanning\\b"
            [["scan"], ["scanning"]]
          description := some "نشاط فحص/مسح", score := some 1
          category := some "مراقبة الشبكة" } ] }

/-- The state of the rules file `RuleManager._load_rules` reads:
missing, present but not valid JSON (`json.JSONDecodeError`), present
but unreadable (any other exception), or successfully parsed. -/
inductive RulesSource where
  | missing
  | badJson
  | ioError
  | parsed (r : RuleSet2)

/-- `RuleManager._load_rules` (analysis.py:60-77): a parsed source is
returned as-is (no validation, no pattern compilation); every failure
falls back to the built-in defaults. -/
def load_rules : RulesSource → RuleSet2
  | RulesSource.missing => default_rules2
  | RulesSource.badJson => default_rules2
  | RulesSource.ioError => default_rules2
  | RulesSource.parsed r => r

/-- Total number of rules held by a catalog. -/
def ruleCount (rs : RuleSet2) : Nat :=
  rs.high_risk_patterns.length + rs.medium_risk_patterns.length
    + rs.low_risk_patterns.length

/-! ### Ingestion — `analysis.py` `FileManager` and
`core/file_handlers.py` `FileHandlers`

A file on disk is modelled by the decoded contents each reader branch
would obtain; the csv/json library output is abstracted to the lines it
produces.  Sizes are `Nat` (bytes). -/

/-- Decoded payload of one ZIP archive entry, as seen by the typed
branches of `FileManager.read_file` (analysis.py:153-190). -/
inductive ZipPayload where
  | text (s : String)
  | csv (rows : List String)
  | json (lines : List String)
  | failed
  | other
deriving DecidableEq, Repr

/-- One ZIP entry.  `ext` is the lowered extension of `name`
(`os.path.splitext(info.filename.lower())`); `rawText` is the raw
`f.read().decode('utf-8', 'ignore')` used by the core handler (`none`
when reading the entry raises). -/
structure ZipEntry where
  name : String
  ext : String
  payload : ZipPayload
  rawText : Option String
deriving DecidableEq, Repr

/-- One TAR member for `FileHandlers._read_tar`; `raw` is the
`extractfile` content (`none` when `extractfile` returns `None`). -/
structure TarEntry where
  name : String
  isFile : Bool
  raw : Option String
deriving DecidableEq, Repr

/-- A file path's observable state for both readers.  Each field is the
decoded content the corresponding reader branch would obtain; `Except`
carries the stringified exception for branches whose parsing can
raise. -/
structure FSFile where
  path : String
  present : Bool
  size : Nat
  ext : String
  text : String
  csvDictRows : List String
  csvCells : List (List String)
  jsonData : Except String (List String)
  jsonPretty : Except String String
  zipEntries : Except String (List ZipEntry)
  tarEntries : Except String (List TarEntry)

/-- A placeholder file to build concrete test files from. -/
def emptyFSFile : FSFile :=
  { path := "", present := false, size := 0, ext := "", text := ""
    csvDictRows := [], csvCells := [], jsonData := Except.ok []
    jsonPretty := Except.ok "", zipEntries := Except.ok []
    tarEntries := Except.ok [] }

/-- The `meta` dict of `FileManager.read_file`. -/
structure FMMeta where
  path : String
  size : Nat
  ext : String
  files_in_archive : Option (List String)
deriving DecidableEq, Repr

/-- The `{"text", "meta", "error"}` dict returned by
`FileManager.read_file`. -/
structure FMResult where
  text : Option String
  meta : Option FMMeta
  error : Option String
deriving DecidableEq, Repr

/-- Rendering of one ZIP entry inside the `.zip` branch of
`FileManager.read_file` (analysis.py:157-188). -/
def renderEntry (e : ZipEntry) : String :=
  if e.ext = ".txt" ∨ e.ext = ".log" then
    match e.payload with
    | ZipPayload.text s => "--- FILE: " ++ e.name ++ " ---\n" ++ s
    | _ => "--- FILE: " ++ e.name ++ " (unreadable) ---"
  else if e.ext = ".csv" then
    match e.payload with
    | ZipPayload.csv rows => String.intercalate "\n" rows
    | _ => "--- FILE: " ++ e.name ++ " (csv parse error) ---"
  else if e.ext = ".json" then
    match e.payload with
    | ZipPayload.json lines => String.intercalate "\n" lines
    | _ => "--- FILE: " ++ e.name ++ " (json parse error) ---"
  else "--- FILE: " ++ e.name ++ " (skipped - unsupported) ---"

/-- `FileManager.read_file` (analysis.py:113-203): existence check, the
100 MB cap before any dispatch, then extension dispatch. -/
def FM_read_file (f : FSFile) : FMResult :=
  if f.present = false then
    ⟨none, none, some ("الملف غير موجود: " ++ f.path)⟩
  else if f.size > Config.MAX_FILE_SIZE then
    ⟨none, none, some ("حجم الملف كبير جداً: " ++ toString f.size ++ " بايت")⟩
  else
    let meta : FMMeta := ⟨f.path, f.size, f.ext, none⟩
    if f.ext = ".txt" ∨ f.ext = ".log" then
      ⟨some f.text, some meta, none⟩
    else if f.ext = ".csv" then
      ⟨some (String.intercalate "\n" f.csvDictRows), some meta, none⟩
    else if f.ext = ".json" then
      match f.jsonData with
      | Except.ok lines => ⟨some (String.intercalate "\n" lines), some meta, none⟩
      | Except.error e => ⟨none, none, some e⟩
    else if f.ext = ".zip" then
      match f.zipEntries with
      | Except.ok es =>
        ⟨some (String.intercalate "\n\n" (es.map renderEntry)),
          some { meta with files_in_archive := some (es.map (fun e => e.name)) },
          none⟩
      | Except.error e => ⟨none, none, some e⟩
    else ⟨none, some meta, some ("Unsupported extension: " ++ f.ext)⟩

/-- The `{"error", "text", "meta"}` dict returned by
`FileHandlers.read`; `meta` is `none` for the empty dict `{}`. -/
structure FHMeta where
  ext : String
  size : Nat
deriving DecidableEq, Repr

/-- Result of `FileHandlers.read`. -/
structure FHResult where
  error : Option String
  text : String
  meta : Option FHMeta
deriving DecidableEq, Repr

/-- `FileHandlers._read_zip` (core/file_handlers.py:81-91): only entries
whose *name* ends with `.txt`/`.log`/`.json`/`.csv` are read (raw), an
entry whose read fails is silently dropped (`except: pass`), and
everything else is silently ignored. -/
def fh_read_zip (es : List ZipEntry) : String :=
  String.intercalate "\n"
    (es.filterMap (fun e =>
      if pyEndsWith e.name ".txt" || pyEndsWith e.name ".log"
          || pyEndsWith e.name ".json" || pyEndsWith e.name ".csv" then
        match e.rawText with
        | some s => some ("--- " ++ e.name ++ " ---\n" ++ s)
        | none => none
      else none))

/-- `FileHandlers._read_tar` (core/file_handlers.py:94-102). -/
def fh_read_tar (es : List TarEntry) : String :=
  String.intercalate "\n"
    (es.filterMap (fun e =>
      if e.isFile && (pyEndsWith e.name ".txt" || pyEndsWith e.name ".log") then
        e.raw.map (fun s => "--- " ++ e.name ++ " ---\n" ++ s)
      else none))

/-- `FileHandlers._read_evtx` placeholder: the optional decoder is
modelled as absent (`import Evtx` failed). -/
def evtxMissingMsg : String :=
  "⚠️ Python-Evtx not installed. Run: pip install python-evtx"

/-- `FileHandlers._read_pcap` placeholder: `dpkt` modelled as absent. -/
def pcapMissingMsg : String :=
  "⚠️ dpkt not installed. Run: pip install dpkt"

/-- `FileHandlers.read` (core/file_handlers.py:30-58): existence check,
extension dispatch, exceptions stringified — and no size check anywhere
(`os.path.getsize` is only consulted for the metadata of a successful
read). -/
def fh_read (f : FSFile) : FHResult :=
  if f.present = false then
    ⟨some ("File not found: " ++ f.path), "", none⟩
  else if f.ext = ".txt" ∨ f.ext = ".log" then
    ⟨none, f.text, some ⟨f.ext, f.size⟩⟩
  else if f.ext = ".csv" then
    ⟨none,
      String.intercalate "\n"
        (f.csvCells.map (fun row => String.intercalate ", " row)),
      some ⟨f.ext, f.size⟩⟩
  else if f.ext = ".json" then
    match f.jsonPretty with
    | Except.ok s => ⟨none, s, some ⟨f.ext, f.size⟩⟩
    | Except.error e => ⟨some e, "", none⟩
  else if f.ext = ".zip" then
    match f.zipEntries with
    | Except.ok es => ⟨none, fh_read_zip es, some ⟨f.ext, f.size⟩⟩
    | Except.error e => ⟨some e, "", none⟩
  else if f.ext = ".tar" then
    match f.tarEntries with
    | Except.ok es => ⟨none, fh_read_tar es, some ⟨f.ext, f.size⟩⟩
    | Except.error e => ⟨some e, "", none⟩
  else if f.ext = ".evt" ∨ f.ext = ".evtx" then
    ⟨none, evtxMissingMsg, some ⟨f.ext, f.size⟩⟩
  else if f.ext = ".pcap" then
    ⟨none, pcapMissingMsg, some ⟨f.ext, f.size⟩⟩
  else ⟨some ("Unsupported file type: " ++ f.ext), "", none⟩

/-! ### Spec-side vocabulary

Definitions following the specification's words, used to state the
claims and compare them with the embedded code. -/

/-- The spec's tier map for the core summary: `≥ HIGH_THRESHOLD → High`
(default 20), `≥ MEDIUM_THRESHOLD → Medium` (default 10), else Low. -/
def spec_level_of (t : Int) : String :=
  if t ≥ 20 then "HIGH" else if t ≥ 10 then "MEDIUM" else "LOW"

/-- The spec's "each tier maps to one fixed recommended-action string"
for the core summary. -/
def spec_action_of (level : String) : String :=
  if level = "HIGH" then "Immediate response required"
  else if level = "MEDIUM" then "Continuous monitoring suggested"
  else "Normal - no urgent action"

/-- Numeric rank of a core tier string, for stating monotonicity. -/
def spec_tier_rank (level : String) : Nat :=
  if level = "HIGH" then 2 else if level = "MEDIUM" then 1 else 0

/-- The spec's tier map for `advanced_statistical_analysis`. -/
def spec_overall_of (t : Int) : String :=
  if t ≥ Config.RISK_HIGH then "🟥 عالي"
  else if t ≥ Config.RISK_MEDIUM then "🟨 متوسط"
  else "🟩 منخفض"

/-- Fixed action string per tier for
`advanced_statistical_analysis`. -/
def spec_action2_of (overall : String) : String :=
  if overall = "🟥 عالي" then "نعم - تدخل فوري مطلوب"
  else if overall = "🟨 متوسط" then "مراقبة مستمرة"
  else "لا - ضمن المعدل الطبيعي"

/-- Numeric rank of an `advanced_statistical_analysis` tier string. -/
def spec_tier_rank2 (overall : String) : Nat :=
  if overall = "🟥 عالي" then 2 else if overall = "🟨 متوسط" then 1 else 0

theorem summarize_fields (basic : BasicSummary) (ps : List CoreEntry) :
    (summarize basic ps).patterns = ps
    ∧ (summarize basic ps).total_score = sumScoreCount ps
    ∧ (summarize basic ps).overall_level = spec_level_of (sumScoreCount ps)
    ∧ (summarize basic ps).recommended_action
        = spec_action_of (spec_level_of (sumScoreCount ps)) := by
  unfold summarize spec_level_of spec_action_of
  by_cases h1 : sumScoreCount ps ≥ 20
  · simp [h1]
  · by_cases h2 : sumScoreCount ps ≥ 10 <;> simp [h1, h2]

theorem advanced_risk_fields (rules : RuleSet2) (content : String) :
    (advanced_risk rules content).total_risk_score
        = sumScoreCount2 (search_suspicious_patterns rules content)
    ∧ (advanced_risk rules content).overall_risk
        = spec_overall_of
            (sumScoreCount2 (search_suspicious_patterns rules content))
    ∧ (advanced_risk rules content).action_required
        = spec_action2_of
            (spec_overall_of
              (sumScoreCount2 (search_suspicious_patterns rules content))) := by
  unfold advanced_risk spec_overall_of spec_action2_of
  by_cases h1 :
    sumScoreCount2 (search_suspicious_patterns rules content) ≥ Config.RISK_HIGH
  · simp [h1]
  · by_cases h2 :
      sumScoreCount2 (search_suspicious_patterns rules content)
        ≥ Config.RISK_MEDIUM <;>
      simp [h1, h2]

theorem spec_level_of_iff (t : Int) :
    (spec_level_of t = "HIGH" ↔ 20 ≤ t)
    ∧ (spec_level_of t = "MEDIUM" ↔ 10 ≤ t ∧ t < 20)
    ∧ (spec_level_of t = "LOW" ↔ t < 10) := by
  unfold spec_level_of
  by_cases h1 : t ≥ 20
  · simp [h1]; omega
  · by_cases h2 : t ≥ 10 <;> simp [h1, h2] <;> omega

theorem spec_overall_of_iff (t : Int) :
    (spec_overall_of t = "🟥 عالي" ↔ 20 ≤ t)
    ∧ (spec_overall_of t = "🟨 متوسط" ↔ 10 ≤ t ∧ t < 20)
    ∧ (spec_overall_of t = "🟩 منخفض" ↔ t < 10) := by
  unfold spec_overall_of Config.RISK_HIGH Config.RISK_MEDIUM
  by_cases h1 : t ≥ 20
  · simp [h1]; omega
  · by_cases h2 : t ≥ 10 <;> simp [h1, h2] <;> omega

theorem spec_level_mono (s t : Int) (h : s ≤ t) :
    spec_tier_rank (spec_level_of s) ≤ spec_tier_rank (spec_level_of t) := by
  unfold spec_level_of spec_tier_rank
  by_cases h1 : s ≥ 20
  · have h2 : t ≥ 20 := by omega
    simp [h1, h2]
  · by_cases h2 : s ≥ 10
    · by_cases h3 : t ≥ 20 <;> by_cases h4 : t ≥ 10 <;> simp [h1, h2, h3, h4] <;> omega
    · by_cases h3 : t ≥ 20 <;> by_cases h4 : t ≥ 10 <;> simp [h1, h2, h3, h4]

theorem spec_overall_mono (s t : Int) (h : s ≤ t) :
    spec_tier_rank2 (spec_overall_of s) ≤ spec_tier_rank2 (spec_overall_of t) := by
  unfold spec_overall_of spec_tier_rank2 Config.RISK_HIGH Config.RISK_MEDIUM
  by_cases h1 : s ≥ 20
  · have h2 : t ≥ 20 := by omega
    simp [h1, h2]
  · by_cases h2 : s ≥ 10
    · by_cases h3 : t ≥ 20 <;> by_cases h4 : t ≥ 10 <;> simp [h1, h2, h3, h4] <;> omega
    · by_cases h3 : t ≥ 20 <;> by_cases h4 : t ≥ 10 <;> simp [h1, h2, h3, h4]

/-! ### Claim theorems -/

/-- C1: for every list of match records produced by the pattern scan,
the aggregate risk score returned by the scorer equals
`Σ (record.score × record.count)` over the records, and is therefore
exactly recomputable from the records alone.  Stated for both scorers:
`ForensicAnalyzer.summarize` (core/analyzer.py:61-62), whose result
carries the records it was computed from, and
`ForensicAnalyzer.advanced_statistical_analysis` (analysis.py:278-279)
over the records of `search_suspicious_patterns`. -/
theorem C1_aggregate_score_recomputable :
    ∀ (basic : BasicSummary) (ps : List CoreEntry) (rules : RuleSet2)
      (content : String),
      (summarize basic ps).total_score
          = sumScoreCount (summarize basic ps).patterns
      ∧ (advanced_risk rules content).total_risk_score
          = sumScoreCount2 (search_suspicious_patterns rules content) := by
  intro basic ps rules content
  refine ⟨?_, (advanced_risk_fields rules content).1⟩
  rw [(summarize_fields basic ps).1, (summarize_fields basic ps).2.1]

/-- C2: the risk tier is High iff the aggregate score is `≥ 20`, Medium
iff `10 ≤ score < 20`, Low otherwise; the tier is monotonic
non-decreasing in the score; and each tier maps to one fixed
recommended-action string.  Stated for both scorers:
`summarize` (core/analyzer.py:63-71) and
`advanced_statistical_analysis` (analysis.py:281-289, thresholds from
`Config.RISK_THRESHOLDS`). -/
theorem C2_risk_tier_thresholds_monotone :
    ∀ (basic : BasicSummary) (ps : List CoreEntry) (rules : RuleSet2)
      (content : String) (s t : Int),
      ((summarize basic ps).overall_level = "HIGH"
          ↔ 20 ≤ sumScoreCount ps)
      ∧ ((summarize basic ps).overall_level = "MEDIUM"
          ↔ 10 ≤ sumScoreCount ps ∧ sumScoreCount ps < 20)
      ∧ ((summarize basic ps).overall_level = "LOW"
          ↔ sumScoreCount ps < 10)
      ∧ (summarize basic ps).recommended_action
          = spec_action_of (summarize basic ps).overall_level
      ∧ ((advanced_risk rules content).overall_risk = "🟥 عالي"
          ↔ 20 ≤ (advanced_risk rules content).total_risk_score)
      ∧ ((advanced_risk rules content).overall_risk = "🟨 متوسط"
          ↔ 10 ≤ (advanced_risk rules content).total_risk_score
            ∧ (advanced_risk rules content).total_risk_score < 20)
      ∧ ((advanced_risk rules content).overall_risk = "🟩 منخفض"
          ↔ (advanced_risk rules content).total_risk_score < 10)
      ∧ (advanced_risk rules content).action_required
          = spec_action2_of (advanced_risk rules content).overall_risk
      ∧ (s ≤ t →
          spec_tier_rank (spec_level_of s) ≤ spec_tier_rank (spec_level_of t)
          ∧ spec_tier_rank2 (spec_overall_of s)
              ≤ spec_tier_rank2 (spec_overall_of t))
      ∧ (summarize basic ps).overall_level = spec_level_of (sumScoreCount ps)
      ∧ (advanced_risk rules content).overall_risk
          = spec_overall_of (advanced_risk rules content).total_risk_score := by
  intro basic ps rules content s t
  obtain ⟨-, -, hov, hact⟩ := summarize_fields basic ps
  obtain ⟨htot, hov2, hact2⟩ := advanced_risk_fields rules content
  refine ⟨?_, ?_, ?_, ?_, ?_, ?_, ?_, ?_, ?_, hov, ?_⟩
  · rw [hov]; exact (spec_level_of_iff _).1
  · rw [hov]; exact (spec_level_of_iff _).2.1
  · rw [hov]; exact (spec_level_of_iff _).2.2
  · rw [hact, hov]
  · rw [hov2, htot]; exact (spec_overall_of_iff _).1
  · rw [hov2, htot]; exact (spec_overall_of_iff _).2.1
  · rw [hov2, htot]; exact (spec_overall_of_iff _).2.2
  · rw [hact2, hov2]
  · intro hst
    exact ⟨spec_level_mono s t hst, spec_overall_mono s t hst⟩
  · rw [hov2, htot]

/-- Witness for C2 at concrete scores: a single record of score 5,
count 5 gives aggregate 25 and tier HIGH (the spec's §8 scenario), and
the monotonicity part at `5 ≤ 25`. -/
theorem C2_witness :
    (((summarize ⟨0, 0, 0, 0⟩
          [⟨"medium", some "Failed Login", "p", 5, 5, "d"⟩]).overall_level
        = "HIGH"
      ↔ 20 ≤ sumScoreCount [⟨"medium", some "Failed Login", "p", 5, 5, "d"⟩])
    ∧ (spec_tier_rank (spec_level_of 5) ≤ spec_tier_rank (spec_level_of 25)
        ∧ spec_tier_rank2 (spec_overall_of 5)
            ≤ spec_tier_rank2 (spec_overall_of 25)))
    ∧ (summarize ⟨0, 0, 0, 0⟩
        [⟨"medium", some "Failed Login", "p", 5, 5, "d"⟩]).overall_level
        = "HIGH" :=
  ⟨⟨(C2_risk_tier_thresholds_monotone ⟨0, 0, 0, 0⟩
        [⟨"medium", some "Failed Login", "p", 5, 5, "d"⟩]
        ⟨[], [], []⟩ "" 5 25).1,
    (C2_risk_tier_thresholds_monotone ⟨0, 0, 0, 0⟩
        [⟨"medium", some "Failed Login", "p", 5, 5, "d"⟩]
        ⟨[], [], []⟩ "" 5 25).2.2.2.2.2.2.2.2.1 (by decide)⟩,
   by decide⟩

/-- C3: for every rule catalog and corpus, the scan output is sorted
descending by `score × count`, is a permutation of the records collected
in the catalog's severity-then-declaration order, and ties (records with
equal `score × count`) keep that collection order — the stable-sort
contract.  Stated for both scans: `search_patterns`
(core/analyzer.py:40-59) and `search_suspicious_patterns`
(analysis.py:238-268). -/
theorem C3_scan_sorted_descending_stable :
    ∀ (rules : CoreRules) (text : String) (rules2 : RuleSet2)
      (content : String) (c : Int),
      (search_patterns rules text).Pairwise
          (fun a b => scoreKey b ≤ scoreKey a)
      ∧ (search_patterns rules text).Perm (collectAll rules text)
      ∧ (search_patterns rules text).filter (fun e => scoreKey e == c)
          = (collectAll rules text).filter (fun e => scoreKey e == c)
      ∧ (search_suspicious_patterns rules2 content).Pairwise
          (fun a b => scoreKey2 b ≤ scoreKey2 a)
      ∧ (search_suspicious_patterns rules2 content).Perm
          (collectAll2 rules2 content)
      ∧ (search_suspicious_patterns rules2 content).filter
            (fun e => scoreKey2 e == c)
          = (collectAll2 rules2 content).filter (fun e => scoreKey2 e == c) := by
  intro rules text rules2 content c
  exact ⟨pairwise_sortDescBy scoreKey _, perm_sortDescBy scoreKey _,
    filter_sortDescBy scoreKey c _, pairwise_sortDescBy scoreKey2 _,
    perm_sortDescBy scoreKey2 _, filter_sortDescBy scoreKey2 c _⟩

/-- The rules of a core catalog whose patterns compile. -/
def compilesOnly (rs : CoreRules) : CoreRules :=
  ⟨rs.high.filter (fun r => r.pattern.compiles),
    rs.medium.filter (fun r => r.pattern.compiles),
    rs.low.filter (fun r => r.pattern.compiles)⟩

/-- The rules of an `analysis.py` catalog whose patterns compile. -/
def compilesOnly2 (rs : RuleSet2) : RuleSet2 :=
  ⟨rs.high_risk_patterns.filter (fun r => r.pattern.compiles),
    rs.medium_risk_patterns.filter (fun r => r.pattern.compiles),
    rs.low_risk_patterns.filter (fun r => r.pattern.compiles)⟩

theorem collectTier_compiles (level text : String) :
    ∀ rs : List CoreRule,
      collectTier level text (rs.filter (fun r => r.pattern.compiles))
        = collectTier level text rs := by
  intro rs
  induction rs with
  | nil => rfl
  | cons r rs ih =>
    by_cases hc : r.pattern.compiles = true
    · simp [List.filter_cons, hc, collectTier, findall, ih]
    · simp only [Bool.not_eq_true] at hc
      simp [List.filter_cons, hc, collectTier, findall, ih]

theorem collect2_compiles (icon level content : String) :
    ∀ rs : List ARule,
      collect2 icon level content (rs.filter (fun r => r.pattern.compiles))
        = collect2 icon level content rs := by
  intro rs
  induction rs with
  | nil => rfl
  | cons r rs ih =>
    by_cases hc : r.pattern.compiles = true
    · simp [List.filter_cons, hc, collect2, findall, ih]
    · simp only [Bool.not_eq_true] at hc
      simp [List.filter_cons, hc, collect2, findall, ih]

theorem search_patterns_compiles (rules : CoreRules) (text : String) :
    search_patterns (compilesOnly rules) text = search_patterns rules text := by
  unfold search_patterns collectAll compilesOnly
  rw [collectTier_compiles, collectTier_compiles, collectTier_compiles]

theorem search2_compiles (rules : RuleSet2) (content : String) :
    search_suspicious_patterns (compilesOnly2 rules) content
      = search_suspicious_patterns rules content := by
  unfold search_suspicious_patterns collectAll2 compilesOnly2
  rw [collect2_compiles, collect2_compiles, collect2_compiles]

/-- C8: a regex evaluation error (`re.error`) for one rule is caught and
that rule alone is skipped — the scan returns exactly the records it
would return for the catalog restricted to the rules whose patterns
compile, and (being a total function) it is never aborted.  Stated for
both scans: `search_patterns` (core/analyzer.py:42-47) and
`search_suspicious_patterns` (analysis.py:238-245). -/
theorem C8_regex_error_skips_only_that_rule :
    ∀ (rules : CoreRules) (text : String) (rules2 : RuleSet2)
      (content : String),
      search_patterns rules text = search_patterns (compilesOnly rules) text
      ∧ search_suspicious_patterns rules2 content
          = search_suspicious_patterns (compilesOnly2 rules2) content := by
  intro rules text rules2 content
  exact ⟨(search_patterns_compiles rules text).symm,
    (search2_compiles rules2 content).symm⟩

/-- Entry membership for a matching rule of one core tier. -/
theorem mem_collectTier (level text : String) (r : CoreRule) :
    ∀ rs : List CoreRule, r ∈ rs → r.pattern.compiles = true →
      r.pattern.find text ≠ [] →
      mkCoreEntry level r (r.pattern.find text) ∈ collectTier level text rs := by
  intro rs
  induction rs with
  | nil => intro h; cases h
  | cons r' rs ih =>
    intro hr hc hm
    rcases List.mem_cons.mp hr with h | h
    · subst h
      have hfa : findall r.pattern text = some (r.pattern.find text) := by
        simp [findall, hc]
      have hne : (r.pattern.find text).isEmpty = false := by
        cases hfind : r.pattern.find text with
        | nil => exact absurd hfind hm
        | cons a as => simp
      simp [collectTier, hfa, hne]
    · have htail := ih h hc hm
      simp only [collectTier]
      split
      · exact htail
      · exact List.mem_cons_of_mem _ htail

/-- Entry membership for a matching rule of one `analysis.py` tier. -/
theorem mem_collect2 (icon level content : String) (r : ARule) :
    ∀ rs : List ARule, r ∈ rs → r.pattern.compiles = true →
      r.pattern.find content ≠ [] →
      mkEntry2 icon level r (r.pattern.find content)
        ∈ collect2 icon level content rs := by
  intro rs
  induction rs with
  | nil => intro h; cases h
  | cons r' rs ih =>
    intro hr hc hm
    rcases List.mem_cons.mp hr with h | h
    · subst h
      have hfa : findall r.pattern content = some (r.pattern.find content) := by
        simp [findall, hc]
      have hne : (r.pattern.find content).isEmpty = false := by
        cases hfind : r.pattern.find content with
        | nil => exact absurd hfind hm
        | cons a as => simp
      simp [collect2, hfa, hne]
    · have htail := ih h hc hm
      simp only [collect2]
      split
      · exact htail
      · exact List.mem_cons_of_mem _ htail

/-- All rules of a core catalog in scan order. -/
def coreRulesAll (rules : CoreRules) : List CoreRule :=
  rules.high ++ rules.medium ++ rules.low

/-- All rules of an `analysis.py` catalog in scan order. -/
def aRulesAll (rules : RuleSet2) : List ARule :=
  rules.high_risk_patterns ++ rules.medium_risk_patterns
    ++ rules.low_risk_patterns

theorem search_patterns_mem_of_rule (rules : CoreRules) (text : String)
    (r : CoreRule) (hmem : r ∈ coreRulesAll rules)
    (hc : r.pattern.compiles = true) (hm : r.pattern.find text ≠ []) :
    ∃ e ∈ search_patterns rules text,
      e.name = r.name ∧ e.score = r.score.getD 1
        ∧ e.count = (r.pattern.find text).length := by
  have hcoll : ∃ level, mkCoreEntry level r (r.pattern.find text)
      ∈ collectAll rules text := by
    rcases List.mem_append.mp hmem with h | h
    rcases List.mem_append.mp h with h | h
    · exact ⟨"high", List.mem_append_left _ (List.mem_append_left _
        (mem_collectTier _ text r _ h hc hm))⟩
    · exact ⟨"medium", List.mem_append_left _ (List.mem_append_right _
        (mem_collectTier _ text r _ h hc hm))⟩
    · exact ⟨"low", List.mem_append_right _
        (mem_collectTier _ text r _ h hc hm)⟩
  obtain ⟨level, hlevel⟩ := hcoll
  refine ⟨mkCoreEntry level r (r.pattern.find text), ?_, rfl, rfl, rfl⟩
  exact (perm_sortDescBy scoreKey (collectAll rules text)).mem_iff.mpr hlevel

theorem search2_mem_of_rule (rules : RuleSet2) (content : String)
    (r : ARule) (hmem : r ∈ aRulesAll rules)
    (hc : r.pattern.compiles = true) (hm : r.pattern.find content ≠ []) :
    ∃ e ∈ search_suspicious_patterns rules content,
      e.name = r.name ∧ e.score = r.score.getD 1
        ∧ e.count = (r.pattern.find content).length := by
  have hcoll : ∃ icon level, mkEntry2 icon level r (r.pattern.find content)
      ∈ collectAll2 rules content := by
    rcases List.mem_append.mp hmem with h | h
    rcases List.mem_append.mp h with h | h
    · exact ⟨"🟥", "عالي الخطورة", List.mem_append_left _
        (List.mem_append_left _ (mem_collect2 _ _ content r _ h hc hm))⟩
    · exact ⟨"🟨", "متوسط الخطورة", List.mem_append_left _
        (List.mem_append_right _ (mem_collect2 _ _ content r _ h hc hm))⟩
    · exact ⟨"🟩", "منخفض الخطورة", List.mem_append_right _
        (mem_collect2 _ _ content r _ h hc hm)⟩
  obtain ⟨icon, level, hlevel⟩ := hcoll
  refine ⟨mkEntry2 icon level r (r.pattern.find content), ?_, rfl, rfl, rfl⟩
  exact (perm_sortDescBy scoreKey2 (collectAll2 rules content)).mem_iff.mpr
    hlevel

/-- C10: a rule that matches but has no `score` field still produces a
match record, and that record's score is the `.get('score', 1)` default
1; a missing score never makes the scan fail (the scan is a total
function).  Stated for both scans (core/analyzer.py:48-57,
analysis.py:253-264). -/
theorem C10_missing_score_defaults_to_one :
    (∀ (rules : CoreRules) (text : String) (r : CoreRule),
      r ∈ coreRulesAll rules → r.pattern.compiles = true →
      r.pattern.find text ≠ [] → r.score = none →
      ∃ e ∈ search_patterns rules text,
        e.name = r.name ∧ e.score = 1
          ∧ e.count = (r.pattern.find text).length)
    ∧ (∀ (rules : RuleSet2) (content : String) (r : ARule),
      r ∈ aRulesAll rules → r.pattern.compiles = true →
      r.pattern.find content ≠ [] → r.score = none →
      ∃ e ∈ search_suspicious_patterns rules content,
        e.name = r.name ∧ e.score = 1
          ∧ e.count = (r.pattern.find content).length) := by
  constructor
  · intro rules text r hmem hc hm hs
    obtain ⟨e, he, hn, hsc, hct⟩ := search_patterns_mem_of_rule rules text r hmem hc hm
    exact ⟨e, he, hn, by rw [hsc, hs]; rfl, hct⟩
  · intro rules content r hmem hc hm hs
    obtain ⟨e, he, hn, hsc, hct⟩ := search2_mem_of_rule rules content r hmem hc hm
    exact ⟨e, he, hn, by rw [hsc, hs]; rfl, hct⟩

/-- A score-less core rule that matches, for the C10 witness. -/
def c10CoreRule : CoreRule :=
  { name := some "NoScore", pattern := wordPat "\\bfoo\\b" [["foo"]]
    score := none, desc := none }

/-- A catalog holding only the score-less core rule. -/
def c10CoreRules : CoreRules := { high := [], medium := [c10CoreRule], low := [] }

/-- A score-less `analysis.py` rule that matches, for the C10 witness. -/
def c10ARule : ARule :=
  { name := some "NoScore2", pattern := wordPat "\\bbar\\b" [["bar"]]
    description := none, score := none, category := none }

/-- A catalog holding only the score-less `analysis.py` rule. -/
def c10ARules : RuleSet2 :=
  { high_risk_patterns := [c10ARule], medium_risk_patterns := []
    low_risk_patterns := [] }

/-- Witness for C10: concrete score-less rules matching twice in
"foo foo" (resp. once in "bar") yield records with score 1. -/
theorem C10_witness :
    (∃ e ∈ search_patterns c10CoreRules "foo foo",
      e.name = some "NoScore" ∧ e.score = 1
        ∧ e.count = (c10CoreRule.pattern.find "foo foo").length)
    ∧ (∃ e ∈ search_suspicious_patterns c10ARules "a bar b",
      e.name = some "NoScore2" ∧ e.score = 1
        ∧ e.count = (c10ARule.pattern.find "a bar b").length) :=
  ⟨C10_missing_score_defaults_to_one.1 c10CoreRules "foo foo" c10CoreRule
      (List.Mem.head _) rfl (by decide) rfl,
    C10_missing_score_defaults_to_one.2 c10ARules "a bar b" c10ARule
      (List.Mem.head _) rfl (by decide) rfl⟩

theorem analyze_file_ok (p : PathInput)
    (h : isBlocked p.path = true ∨ p.present = true) :
    ∃ o, analyze_file p = Except.ok o := by
  rcases h with h | h
  · exact ⟨none, by simp [analyze_file, safe_read_file, h]⟩
  · by_cases hb : isBlocked p.path = true
    · exact ⟨none, by simp [analyze_file, safe_read_file, hb]⟩
    · by_cases hc : p.content = ""
      · exact ⟨none, by simp [analyze_file, safe_read_file, hb, h, hc]⟩
      · exact ⟨some (summarize (analyze_basic p.content)
            (search_patterns DEFAULT_RULES p.content)),
          by simp [analyze_file, safe_read_file, hb, h, hc]⟩

/-- The batch of the claim's scenario: five paths, one of which does not
exist. -/
def c4Batch : List PathInput :=
  [⟨"data/a.txt", true, ""⟩, ⟨"data/b.log", true, ""⟩,
   ⟨"data/ghost.txt", false, ""⟩, ⟨"data/c.txt", true, ""⟩,
   ⟨"data/d.csv", true, ""⟩]

/-- Counterexample to C4 as stated: on a batch of 5 paths of which one
does not exist, the batch run does **not** return one result per path —
the `FileNotFoundError` raised inside `analyze_file` propagates out of
`list(executor.map(...))` and every result is lost. -/
theorem C4_counterexample :
    c4Batch.length = 5
    ∧ runBatch c4Batch
        = Except.error (PyError.fileNotFound "data/ghost.txt") :=
  ⟨rfl, rfl⟩

/-- C4 (amended): the batch returns exactly one result per input path
only when every path is blocked or readable — blocked paths and empty
files yield `None` rather than an error-carrying result — while a
non-blocked path that cannot be opened raises `FileNotFoundError`, which
propagates out of the batch runner (run_analysis.py:52-94). -/
theorem C4_batch_one_result_per_readable_path :
    (∀ ps : List PathInput,
      (∀ p ∈ ps, isBlocked p.path = true ∨ p.present = true) →
      ∃ rs, runBatch ps = Except.ok rs ∧ rs.length = ps.length)
    ∧ (∀ p : PathInput, isBlocked p.path = false → p.present = false →
      analyze_file p = Except.error (PyError.fileNotFound p.path)) := by
  constructor
  · intro ps
    induction ps with
    | nil => intro _; exact ⟨[], rfl, rfl⟩
    | cons p ps ih =>
      intro h
      obtain ⟨o, ho⟩ := analyze_file_ok p (h p (List.mem_cons_self p ps))
      obtain ⟨rs, hrs, hlen⟩ := ih (fun q hq => h q (List.mem_cons_of_mem p hq))
      exact ⟨o :: rs, by simp [runBatch, ho, hrs], by simp [hlen]⟩
  · intro p hb hp
    simp [analyze_file, safe_read_file, hb, hp]

/-- Witness for C4 (amended) at a concrete batch (one readable path, one
blocked-but-absent path) and at a concrete missing path. -/
theorem C4_witness :
    (∃ rs, runBatch [⟨"data/a.txt", true, "hello"⟩, ⟨"x.exe", false, ""⟩]
        = Except.ok rs
      ∧ rs.length
          = ([⟨"data/a.txt", true, "hello"⟩,
              ⟨"x.exe", false, ""⟩] : List PathInput).length)
    ∧ analyze_file ⟨"data/ghost.txt", false, ""⟩
        = Except.error (PyError.fileNotFound "data/ghost.txt") :=
  ⟨C4_batch_one_result_per_readable_path.1
      [⟨"data/a.txt", true, "hello"⟩, ⟨"x.exe", false, ""⟩] (by decide),
    C4_batch_one_result_per_readable_path.2 ⟨"data/ghost.txt", false, ""⟩
      (by decide) rfl⟩

/-- Counterexample to C5 as stated: a blocked `.exe` path is rejected
before any read, but the batch output contains `None` for it — not an
`AnalysisResult` carrying a `Blocked` error (`safe_read_file` returns
`""` and `analyze_file` then returns `None`; no error record exists). -/
theorem C5_counterexample :
    isBlocked "payload/run.exe" = true
    ∧ analyze_file ⟨"payload/run.exe", true, "ransomware malware"⟩
        = Except.ok none
    ∧ runBatch [⟨"payload/run.exe", true, "ransomware malware"⟩]
        = Except.ok [none] :=
  ⟨rfl, rfl, rfl⟩

/-- C5 (amended): a path whose extension is on the executable blocklist
is rejected before any file read (`safe_read_file` yields `""` whatever
the file's state or content) and never reaches analysis; the batch
output for it is `None`, with no error record
(run_analysis.py:26-32,52-55). -/
theorem C5_blocked_path_never_read_yields_none :
    ∀ p : PathInput, isBlocked p.path = true →
      safe_read_file p = Except.ok "" ∧ analyze_file p = Except.ok none := by
  intro p h
  exact ⟨by simp [safe_read_file, h], by simp [analyze_file, safe_read_file, h]⟩

/-- Witness for C5 (amended) at a concrete blocked path whose content
would otherwise match high-risk rules. -/
theorem C5_witness :
    safe_read_file ⟨"payload/tool.bat", true, "ransomware attack"⟩
        = Except.ok ""
    ∧ analyze_file ⟨"payload/tool.bat", true, "ransomware attack"⟩
        = Except.ok none :=
  C5_blocked_path_never_read_yields_none
    ⟨"payload/tool.bat", true, "ransomware attack"⟩ rfl

/-- A rule whose pattern does not compile, plus two valid companions,
for the C6 counterexample. -/
def c6BadRule : ARule :=
  { name := some "Broken"
    pattern := { src := "[unclosed", compiles := false, find := fun _ => [] }
    description := none, score := some 5, category := none }

/-- First valid companion rule. -/
def c6GoodHigh : ARule :=
  { name := some "GoodHigh", pattern := wordPat "\\bevil\\b" [["evil"]]
    description := none, score := some 9, category := none }

/-- Second valid companion rule. -/
def c6GoodMedium : ARule :=
  { name := some "GoodMedium", pattern := wordPat "\\bodd\\b" [["odd"]]
    description := none, score := some 4, category := none }

/-- A parsed rule source with one invalid rule alongside two valid
ones. -/
def c6Mixed : RuleSet2 :=
  { high_risk_patterns := [c6GoodHigh, c6BadRule]
    medium_risk_patterns := [c6GoodMedium]
    low_risk_patterns := [] }

/-- Counterexample to C6 as stated: loading a source with one
invalid-pattern rule alongside 2 valid rules yields a catalog of all 3
rules — the invalid rule is **not** dropped at load time
(no pattern is compiled in `RuleManager._load_rules`). -/
theorem C6_counterexample :
    load_rules (RulesSource.parsed c6Mixed) = c6Mixed
    ∧ ruleCount c6Mixed = 3
    ∧ c6Mixed.high_risk_patterns.map (fun r => r.pattern.compiles)
        = [true, false] :=
  ⟨rfl, rfl, rfl⟩

/-- C6 (amended): `RuleManager._load_rules` performs no pattern
compilation — a successfully parsed source is returned unchanged,
invalid rules included — and an invalid rule is instead skipped
individually at scan time (the scan equals the scan of the
compiling-rules-only catalog), so no failure surfaces to the caller
(analysis.py:60-77,240-244). -/
theorem C6_loader_keeps_invalid_rules_scan_skips_them :
    (∀ r : RuleSet2, load_rules (RulesSource.parsed r) = r)
    ∧ (∀ (rules : RuleSet2) (content : String),
      search_suspicious_patterns rules content
        = search_suspicious_patterns (compilesOnly2 rules) content) := by
  exact ⟨fun _ => rfl, fun rules content => (search2_compiles rules content).symm⟩

theorem intercalate_single (s a : String) : String.intercalate s [a] = a := rfl

theorem intercalate_pair (s a b : String) :
    String.intercalate s [a, b] = a ++ s ++ b := rfl

/-- A 100 MB + 1 byte text file for the C7 counterexample. -/
def c7BigTxt : FSFile :=
  { emptyFSFile with
      path := "big.txt", present := true, ext := ".txt", text := "hello"
      size := 100 * 1024 * 1024 + 1 }

/-- Counterexample to C7 as stated: `FileHandlers.read`
(core/file_handlers.py) is an ingestion path with **no** size cap — a
file one byte over the 100 MB cap is read successfully, with no
`SizeExceeded` error, so the cap is not uniform across the ingestion
code. -/
theorem C7_counterexample :
    c7BigTxt.size > Config.MAX_FILE_SIZE
    ∧ fh_read c7BigTxt
        = ⟨none, "hello", some ⟨".txt", 100 * 1024 * 1024 + 1⟩⟩ :=
  ⟨by decide, rfl⟩

/-- C7 (amended): `FileManager.read_file` (analysis.py:119-127) rejects
any file over the 100 MB cap before dispatch, uniformly for every
extension; `FileHandlers.read` (core/file_handlers.py:30-58) applies no
size cap — its error and text fields are independent of the file's
size. -/
theorem C7_size_cap_in_FileManager_only :
    (∀ f : FSFile, f.present = true → f.size > Config.MAX_FILE_SIZE →
      FM_read_file f
        = ⟨none, none,
            some ("حجم الملف كبير جداً: " ++ toString f.size ++ " بايت")⟩)
    ∧ (∀ (f : FSFile) (n : Nat),
      (fh_read { f with size := n }).error = (fh_read f).error
      ∧ (fh_read { f with size := n }).text = (fh_read f).text) := by
  constructor
  · intro f h1 h2
    simp [FM_read_file, h1, h2]
  · intro f n
    cases f
    constructor <;> (simp only [fh_read]) <;>
      (repeat' split) <;> simp_all
/-- Witness for C7 (amended): the over-cap file is rejected by
`FileManager.read_file` and read by `FileHandlers.read` independently of
its size. -/
theorem C7_witness :
    FM_read_file c7BigTxt
      = ⟨none, none,
          some ("حجم الملف كبير جداً: " ++ toString c7BigTxt.size ++ " بايت")⟩
    ∧ ((fh_read { c7BigTxt with size := 0 }).error = (fh_read c7BigTxt).error
      ∧ (fh_read { c7BigTxt with size := 0 }).text = (fh_read c7BigTxt).text) :=
  ⟨C7_size_cap_in_FileManager_only.1 c7BigTxt rfl (by decide),
    C7_size_cap_in_FileManager_only.2 c7BigTxt 0⟩

/-- The `.txt` entry of the C9 archive. -/
def c9TxtEntry : ZipEntry :=
  ⟨"notes.txt", ".txt", ZipPayload.text "hello world", some "hello world"⟩

/-- The `.exe` entry of the C9 archive. -/
def c9ExeEntry : ZipEntry :=
  ⟨"tool.exe", ".exe", ZipPayload.other, some "MZ-binary-payload"⟩

/-- A ZIP file holding one `.txt` entry and one `.exe` entry. -/
def c9Zip : FSFile :=
  { emptyFSFile with
      path := "evidence.zip", present := true, size := 64, ext := ".zip"
      zipEntries := Except.ok [c9TxtEntry, c9ExeEntry] }

/-- Counterexample to C9 as stated: for a ZIP with one `.txt` and one
`.exe` entry, `FileManager.read_file` (analysis.py:153-190) puts a skip
marker **naming the `.exe` entry into the corpus text itself** — the
text rule matching runs over contains `"tool.exe"` — while
`FileHandlers._read_zip` (core/file_handlers.py:81-91) records the
skipped `.exe` entry **nowhere** (no skipped-entries record at all). -/
theorem C9_counterexample :
    (FM_read_file c9Zip).text
        = some ("--- FILE: notes.txt ---\nhello world\n\n--- FILE: "
            ++ "tool.exe" ++ " (skipped - unsupported) ---")
    ∧ (FM_read_file c9Zip).meta
        = some ⟨"evidence.zip", 64, ".zip", some ["notes.txt", "tool.exe"]⟩
    ∧ fh_read c9Zip
        = ⟨none, "--- notes.txt ---\nhello world", some ⟨".zip", 64⟩⟩ :=
  ⟨rfl, rfl, rfl⟩

/-- C9 (amended): for every ZIP with one `.txt` entry and one `.exe`
entry, `FileManager.read_file` produces a corpus whose text is exactly
the `.txt` entry's text under its file marker followed by a skip marker
naming the `.exe` entry (the `.exe` entry's *content* is never read into
the corpus, but its *name* does appear in the matched text), with both
entry names recorded in the archive metadata; `FileHandlers._read_zip`
reads only the `.txt` entry and drops the `.exe` entry without any
record. -/
theorem C9_zip_txt_read_exe_skipped_marker :
    ∀ (f : FSFile) (e1 e2 : ZipEntry) (c1 r1 : String),
      f.present = true → f.size ≤ Config.MAX_FILE_SIZE → f.ext = ".zip" →
      f.zipEntries = Except.ok [e1, e2] →
      e1.ext = ".txt" → e1.payload = ZipPayload.text c1 → e2.ext = ".exe" →
      FM_read_file f
          = ⟨some ("--- FILE: " ++ e1.name ++ " ---\n" ++ c1 ++ "\n\n"
                ++ "--- FILE: " ++ e2.name ++ " (skipped - unsupported) ---"),
              some ⟨f.path, f.size, ".zip", some [e1.name, e2.name]⟩, none⟩
      ∧ (pyEndsWith e1.name ".txt" = true →
          (pyEndsWith e2.name ".txt" || pyEndsWith e2.name ".log"
            || pyEndsWith e2.name ".json" || pyEndsWith e2.name ".csv") = false →
          e1.rawText = some r1 →
          fh_read f
            = ⟨none, "--- " ++ e1.name ++ " ---\n" ++ r1,
                some ⟨".zip", f.size⟩⟩) := by
  intro f e1 e2 c1 r1 hp hsz hext hzip hext1 hpay1 hext2
  have hsz' : ¬ (f.size > Config.MAX_FILE_SIZE) := by omega
  have hr1 : renderEntry e1 = "--- FILE: " ++ e1.name ++ " ---\n" ++ c1 := by
    simp [renderEntry, hext1, hpay1]
  have hr2 : renderEntry e2
      = "--- FILE: " ++ e2.name ++ " (skipped - unsupported) ---" := by
    simp [renderEntry, hext2]
  constructor
  · simp only [FM_read_file, hp, hsz', hext, hzip]
    have hlit : ∀ x : String,
        "\n\n" ++ ("--- FILE: " ++ x) = "\n\n--- FILE: " ++ x := by
      intro x
      rw [← String.append_assoc]
      rfl
    simp [hr1, hr2, intercalate_pair, String.append_assoc, hlit]
  · intro hn1 hn2 hraw
    have hn2' := hn2
    simp only [Bool.or_eq_false_iff] at hn2'
    obtain ⟨⟨⟨ha, hb⟩, hc⟩, hd⟩ := hn2'
    simp only [fh_read, hp, hext, hzip]
    simp [fh_read_zip, hn1, ha, hb, hc, hd, hraw, intercalate_single]

/-- Witness for C9 (amended) at the concrete two-entry archive. -/
theorem C9_witness :
    FM_read_file c9Zip
        = ⟨some ("--- FILE: " ++ c9TxtEntry.name ++ " ---\n" ++ "hello world"
              ++ "\n\n" ++ "--- FILE: " ++ c9ExeEntry.name
              ++ " (skipped - unsupported) ---"),
            some ⟨c9Zip.path, c9Zip.size, ".zip",
              some [c9TxtEntry.name, c9ExeEntry.name]⟩, none⟩
    ∧ (pyEndsWith c9TxtEntry.name ".txt" = true →
        (pyEndsWith c9ExeEntry.name ".txt" || pyEndsWith c9ExeEntry.name ".log"
          || pyEndsWith c9ExeEntry.name ".json"
          || pyEndsWith c9ExeEntry.name ".csv") = false →
        c9TxtEntry.rawText = some "hello world" →
        fh_read c9Zip
          = ⟨none, "--- " ++ c9TxtEntry.name ++ " ---\n" ++ "hello world",
              some ⟨".zip", c9Zip.size⟩⟩) :=
  C9_zip_txt_read_exe_skipped_marker c9Zip c9TxtEntry c9ExeEntry
    "hello world" "hello world" rfl (by decide) rfl rfl rfl rfl rfl

end Forensics
